import Mathlib

/-!
# ime-switcher: a shallow embedding of `native-helper/ime-switcher.c`

The helper is a single C file that talks to the operating system through a
handful of Win32 / IMM32 / TSF calls.  Those calls are external collaborators:
they are modelled here as the fields of a `Platform σ`, a deterministic
machine over an arbitrary state type `σ`, so that every statement proved for
all platforms covers every combination of outcomes the calls can have.  The C
functions are translated one by one as state-passing functions over a `World`,
which pairs the platform state with what the process has done so far: the
trace of calls it made and the lines it printed.  Besides the platform calls
the trace records the entry into each C function (`Event.enter`), a ghost
event that lets a statement say which strategy was invoked.

C integers: `int` results are `Int`; handles (`HWND`), `WORD`, `DWORD` and
`DWORD_PTR` values are `Nat` (a `NULL` handle is `0`), truncated with an
explicit `% 2 ^ 32` where the source casts to `DWORD`; `long` is `Int` with
the two's complement bitwise operations `Int.lor`, `Int.land`, `Int.lnot`;
`HRESULT` is `Int` and fails when negative.
-/

namespace ImeSwitcher

/-! ## Constants -/

/-- The value 0x0001 of `IME_CMODE_NATIVE` (line 50). -/
def IME_CMODE_NATIVE : Nat := 0x0001
/-- The value of `IMC_GETCONVERSIONMODE` (line 53). -/
def IMC_GETCONVERSIONMODE : Nat := 0x0001
/-- The value of `IMC_SETCONVERSIONMODE` (line 54). -/
def IMC_SETCONVERSIONMODE : Nat := 0x0002
/-- The value of `TF_CONVERSIONMODE_NATIVE` (line 55), an `int` constant. -/
def TF_CONVERSIONMODE_NATIVE : Int := 0x0001

/-- Windows SDK value of the message `WM_IME_CONTROL`. -/
def WM_IME_CONTROL : Nat := 0x0283
/-- Windows SDK value of the flag `SMTO_BLOCK`. -/
def SMTO_BLOCK : Nat := 0x0001
/-- Windows SDK value of the flag `SMTO_ABORTIFHUNG`. -/
def SMTO_ABORTIFHUNG : Nat := 0x0002
/-- Windows SDK value of the primary language identifier `LANG_CHINESE`. -/
def LANG_CHINESE : Nat := 0x04
/-- Windows SDK value of the virtual key `VK_SHIFT`. -/
def VK_SHIFT : Nat := 0x10
/-- Windows SDK value of the virtual key `VK_CONTROL`. -/
def VK_CONTROL : Nat := 0x11
/-- Windows SDK value of the input type `INPUT_KEYBOARD`. -/
def INPUT_KEYBOARD : Nat := 1
/-- Windows SDK value of the key event flag `KEYEVENTF_KEYUP`. -/
def KEYEVENTF_KEYUP : Nat := 0x0002
/-- Windows SDK value of the variant type tag `VT_I4`. -/
def VT_I4 : Nat := 3
/-- Windows SDK value of the variant type tag `VT_EMPTY`, set by `VariantInit`. -/
def VT_EMPTY : Nat := 0
/-- Windows SDK value of `COINIT_APARTMENTTHREADED`. -/
def COINIT_APARTMENTTHREADED : Nat := 0x2
/-- Windows SDK value of `RPC_E_CHANGED_MODE` (0x80010106) as a signed 32-bit `HRESULT`. -/
def RPC_E_CHANGED_MODE : Int := 0x80010106 - 2 ^ 32

/-- Windows SDK macro `LOWORD`: the low 16 bits. -/
def LOWORD (l : Nat) : Nat := l &&& 0xffff
/-- Windows SDK macro `PRIMARYLANGID`: the low 10 bits of a language identifier. -/
def PRIMARYLANGID (lgid : Nat) : Nat := lgid &&& 0x3ff
/-- Windows SDK macro `FAILED`: an `HRESULT` is a failure when it is negative. -/
def FAILED (hr : Int) : Bool := decide (hr < 0)
/-- Windows SDK macro `SUCCEEDED`: an `HRESULT` is a success when it is not negative. -/
def SUCCEEDED (hr : Int) : Bool := decide (0 ≤ hr)

/-! ## Data -/

/-- The fields of a keyboard `INPUT` record that `sendinput_inject_vk` sets
after `ZeroMemory` (lines 127-134); every other field is zero. -/
structure INPUT where
  type : Nat
  wVk : Nat
  dwFlags : Nat
deriving DecidableEq, Repr

/-- A `VARIANT` as far as the source looks at it: the type tag `vt` and the
32-bit payload `lVal` (a `long`). -/
structure VARIANT where
  vt : Nat
  lVal : Int
deriving DecidableEq, Repr

/-- A `GUID`: three integer fields and eight bytes. -/
structure GUID where
  Data1 : Nat
  Data2 : Nat
  Data3 : Nat
  Data4 : List Nat
deriving DecidableEq, Repr

/-- The compartment identifier `GUID_KBD_INPUTMODE_CONVERSION` (lines 64-67). -/
def GUID_KBD_INPUTMODE_CONVERSION : GUID :=
  ⟨0xCCBE29E4, 0x7A86, 0x474F, [0x8C, 0x64, 0x5B, 0x12, 0xDD, 0xE0, 0x0D, 0x1D]⟩

/-- The enumeration `ToggleKey` (line 122). -/
inductive ToggleKey where
  | KEY_AUTO
  | KEY_SHIFT
  | KEY_CTRL
deriving DecidableEq, Repr

/-- The C functions of the file whose calls are recorded in the trace. -/
inductive Fn where
  | is_chinese_ime
  | imm32_query
  | imm32_set
  | sendinput_inject_vk
  | sendinput_toggle_if_needed
  | tsf_set
  | cmd_query
  | cmd_set
deriving DecidableEq, Repr

/-- The COM interface pointers held by `tsf_set`. -/
inductive ComObj where
  | pTM
  | pGCM
  | pC
deriving DecidableEq, Repr

/-- One entry of the trace: either a platform call with the arguments the
program passed, or `enter f`, a ghost record that the C function `f` was
called (it has no effect on the platform). -/
inductive Event where
  | enter (f : Fn)
  | GetForegroundWindow
  | GetWindowThreadProcessId (hwnd : Nat)
  | GetKeyboardLayout (tid : Nat)
  | ImmGetDefaultIMEWnd (hwnd : Nat)
  | SendMessageTimeoutW (hwnd msg wParam lParam fuFlags uTimeout : Nat)
  | SendInput (inputs : List INPUT)
  | Sleep (ms : Nat)
  | CoInitializeEx (dwCoInit : Nat)
  | CoCreateInstance
  | ITfThreadMgr_Activate
  | ITfThreadMgr_GetGlobalCompartment
  | ITfCompartmentMgr_GetCompartment (g : GUID)
  | ITfCompartment_GetValue
  | ITfCompartment_SetValue (cid : Nat) (v : VARIANT)
  | Release (o : ComObj)
  | ITfThreadMgr_Deactivate
  | CoUninit
deriving DecidableEq, Repr

/-- The platform primitives the program consumes, as a deterministic machine
over a state `σ`.  Each field is one Win32 / IMM32 / TSF entry point; it
receives the arguments the program passes and returns what the program reads
back, together with the next platform state.
`SendMessageTimeoutW` returns the `LRESULT` and the content of `*lpdwResult`
after the call; `ITfCompartment_GetValue` returns the `HRESULT` and the variant
it filled in; `ITfThreadMgr_Activate` returns the `HRESULT` and the client id;
`Release` stands for the three `..._Release` calls, one per interface pointer,
and `CoUninit` for `CoUninitialize`. -/
structure Platform (σ : Type) where
  GetForegroundWindow : σ → Nat × σ
  GetWindowThreadProcessId : Nat → σ → Nat × σ
  GetKeyboardLayout : Nat → σ → Nat × σ
  ImmGetDefaultIMEWnd : Nat → σ → Nat × σ
  SendMessageTimeoutW : Nat → Nat → Nat → Nat → Nat → Nat → σ → (Int × Nat) × σ
  SendInput : List INPUT → σ → Nat × σ
  Sleep : Nat → σ → σ
  CoInitializeEx : Nat → σ → Int × σ
  CoCreateInstance : σ → Int × σ
  ITfThreadMgr_Activate : σ → (Int × Nat) × σ
  ITfThreadMgr_GetGlobalCompartment : σ → Int × σ
  ITfCompartmentMgr_GetCompartment : GUID → σ → Int × σ
  ITfCompartment_GetValue : σ → (Int × VARIANT) × σ
  ITfCompartment_SetValue : Nat → VARIANT → σ → Int × σ
  Release : ComObj → σ → σ
  ITfThreadMgr_Deactivate : σ → σ
  CoUninit : σ → σ

/-- The platform state together with what the process has done: the trace of
its calls (oldest first) and the lines written to standard output and to the
error stream. -/
structure World (σ : Type) where
  plat : σ
  trace : List Event
  stdout : List String
  stderr : List String

variable {σ : Type}

/-- Ghost step: record an event in the trace. -/
def World.log (e : Event) (w : World σ) : World σ :=
  { w with trace := w.trace ++ [e] }

/-- A platform call that returns a value: record it, run it on the platform state. -/
def World.call {α : Type} (e : Event) (f : σ → α × σ) (w : World σ) : α × World σ :=
  ((f w.plat).1, { w with plat := (f w.plat).2, trace := w.trace ++ [e] })

/-- A platform call that returns nothing: record it, run it on the platform state. -/
def World.exec (e : Event) (f : σ → σ) (w : World σ) : World σ :=
  { w with plat := f w.plat, trace := w.trace ++ [e] }

/-- The call `printf(s)`. -/
def World.printf (s : String) (w : World σ) : World σ :=
  { w with stdout := w.stdout ++ [s] }

/-- The call `fprintf(stderr, s)`. -/
def World.eprintf (s : String) (w : World σ) : World σ :=
  { w with stderr := w.stderr ++ [s] }

/-! ## The C functions -/

/-- Function `is_chinese_ime` (lines 81-86). -/
def is_chinese_ime (P : Platform σ) (hwnd : Nat) (w : World σ) : Bool × World σ :=
  let w0 := w.log (.enter .is_chinese_ime)
  let t := w0.call (.GetWindowThreadProcessId hwnd) (P.GetWindowThreadProcessId hwnd)
  let h := t.2.call (.GetKeyboardLayout t.1) (P.GetKeyboardLayout t.1)
  let lang := PRIMARYLANGID (LOWORD h.1)
  (decide (lang = LANG_CHINESE), h.2)

/-- The request both IMM32 functions send first (lines 94-96 and 107-109):
`WM_IME_CONTROL` with `IMC_GETCONVERSIONMODE`, flags
`SMTO_ABORTIFHUNG | SMTO_BLOCK`, timeout 500. -/
def get_conversion_mode (P : Platform σ) (ime : Nat) (w : World σ) : (Int × Nat) × World σ :=
  w.call (.SendMessageTimeoutW ime WM_IME_CONTROL IMC_GETCONVERSIONMODE 0
            (SMTO_ABORTIFHUNG ||| SMTO_BLOCK) 500)
    (P.SendMessageTimeoutW ime WM_IME_CONTROL IMC_GETCONVERSIONMODE 0
            (SMTO_ABORTIFHUNG ||| SMTO_BLOCK) 500)

/-- Function `imm32_query` (lines 89-99): 1 = Chinese, 0 = English, -1 = failure. -/
def imm32_query (P : Platform σ) (fg : Nat) (w : World σ) : Int × World σ :=
  let w0 := w.log (.enter .imm32_query)
  if fg = 0 then (-1, w0) else
  let c := is_chinese_ime P fg w0
  if c.1 = false then (-1, c.2) else
  let i := c.2.call (.ImmGetDefaultIMEWnd fg) (P.ImmGetDefaultIMEWnd fg)
  if i.1 = 0 then (-1, i.2) else
  let m := get_conversion_mode P i.1 i.2
  if m.1.1 = 0 then (-1, m.2) else
  (if m.1.2 &&& IME_CMODE_NATIVE ≠ 0 then 1 else 0, m.2)

/-- Function `imm32_set` (lines 102-118).  The result of the second
`SendMessageTimeoutW` is not looked at by the source. -/
def imm32_set (P : Platform σ) (fg : Nat) (set_zh : Bool) (w : World σ) : Int × World σ :=
  let w0 := w.log (.enter .imm32_set)
  if fg = 0 then (-1, w0) else
  let c := is_chinese_ime P fg w0
  if c.1 = false then (-1, c.2) else
  let i := c.2.call (.ImmGetDefaultIMEWnd fg) (P.ImmGetDefaultIMEWnd fg)
  if i.1 = 0 then (-1, i.2) else
  let m := get_conversion_mode P i.1 i.2
  if m.1.1 = 0 then (-1, m.2) else
  let nm : Nat := if set_zh then (m.1.2 % 2 ^ 32) ||| IME_CMODE_NATIVE
                  else (m.1.2 % 2 ^ 32) &&& (2 ^ 32 - 1 - IME_CMODE_NATIVE)
  let s := m.2.call (.SendMessageTimeoutW i.1 WM_IME_CONTROL IMC_SETCONVERSIONMODE nm
                        (SMTO_ABORTIFHUNG ||| SMTO_BLOCK) 500)
             (P.SendMessageTimeoutW i.1 WM_IME_CONTROL IMC_SETCONVERSIONMODE nm
                        (SMTO_ABORTIFHUNG ||| SMTO_BLOCK) 500)
  (0, s.2)

/-- The two records built by `sendinput_inject_vk` (lines 127-134): key down, key up. -/
def key_pair (vk : Nat) : List INPUT :=
  [⟨INPUT_KEYBOARD, vk, 0⟩, ⟨INPUT_KEYBOARD, vk, KEYEVENTF_KEYUP⟩]

/-- Function `sendinput_inject_vk` (lines 126-136): 0 = injected, -1 = failure. -/
def sendinput_inject_vk (P : Platform σ) (vk : Nat) (w : World σ) : Int × World σ :=
  let w0 := w.log (.enter .sendinput_inject_vk)
  let r := w0.call (.SendInput (key_pair vk)) (P.SendInput (key_pair vk))
  (if r.1 = 2 then 0 else -1, r.2)

/-- Function `sendinput_toggle_if_needed` (lines 140-145):
0 = injected, 1 = already in the target state, -1 = cannot query (or the
injection failed). -/
def sendinput_toggle_if_needed (P : Platform σ) (fg : Nat) (set_zh : Bool) (vk : Nat)
    (w : World σ) : Int × World σ :=
  let w0 := w.log (.enter .sendinput_toggle_if_needed)
  let cur := imm32_query P fg w0
  if cur.1 < 0 then (-1, cur.2) else
  if decide (cur.1 = 1) = set_zh then (1, cur.2) else
  sendinput_inject_vk P vk cur.2

/-- Cleanup label `ts_done` (line 221). -/
def ts_done (P : Platform σ) (result : Int) (w : World σ) : Int × World σ :=
  (result, w.exec .CoUninit P.CoUninit)

/-- Cleanup label `ts_rel` (line 220), falling through to `ts_done`. -/
def ts_rel (P : Platform σ) (result : Int) (w : World σ) : Int × World σ :=
  ts_done P result (w.exec (.Release .pTM) (P.Release .pTM))

/-- Cleanup label `ts_deact` (line 219), falling through to `ts_rel`. -/
def ts_deact (P : Platform σ) (result : Int) (w : World σ) : Int × World σ :=
  ts_rel P result (w.exec .ITfThreadMgr_Deactivate P.ITfThreadMgr_Deactivate)

/-- Cleanup label `ts_relgcm` (line 218), falling through to `ts_deact`. -/
def ts_relgcm (P : Platform σ) (result : Int) (w : World σ) : Int × World σ :=
  ts_deact P result (w.exec (.Release .pGCM) (P.Release .pGCM))

/-- The value `nv` computed at lines 209-210 from the value `cur` read from
the compartment: `cur | TF_CONVERSIONMODE_NATIVE` or
`cur & ~TF_CONVERSIONMODE_NATIVE`. -/
def tsf_new_value (set_zh : Bool) (cur : Int) : Int :=
  if set_zh then Int.lor cur TF_CONVERSIONMODE_NATIVE
  else Int.land cur (Int.lnot TF_CONVERSIONMODE_NATIVE)

/-- The value `cur` of lines 204-206: the payload of the variant read by
`ITfCompartment_GetValue` when the call succeeded with a `VT_I4`, and 0
otherwise. -/
def tsf_cur (hr : Int) (vOld : VARIANT) : Int :=
  if SUCCEEDED hr && decide (vOld.vt = VT_I4) then vOld.lVal else 0

/-- Function `tsf_set` (lines 182-223): 0 = written, -1 = failure.
`VariantInit` and `VariantClear` act on local variables only and are left
out; the client id passed to the write is the one `ITfThreadMgr_Activate`
returned. -/
def tsf_set (P : Platform σ) (set_zh : Bool) (w : World σ) : Int × World σ :=
  let w0 := w.log (.enter .tsf_set)
  let ci := w0.call (.CoInitializeEx COINIT_APARTMENTTHREADED)
              (P.CoInitializeEx COINIT_APARTMENTTHREADED)
  if FAILED ci.1 && decide (ci.1 ≠ RPC_E_CHANGED_MODE) then (-1, ci.2) else
  let cc := ci.2.call .CoCreateInstance P.CoCreateInstance
  if FAILED cc.1 then ts_done P (-1) cc.2 else
  let ac := cc.2.call .ITfThreadMgr_Activate P.ITfThreadMgr_Activate
  if FAILED ac.1.1 then ts_rel P (-1) ac.2 else
  let gg := ac.2.call .ITfThreadMgr_GetGlobalCompartment P.ITfThreadMgr_GetGlobalCompartment
  if FAILED gg.1 then ts_deact P (-1) gg.2 else
  let gc := gg.2.call (.ITfCompartmentMgr_GetCompartment GUID_KBD_INPUTMODE_CONVERSION)
              (P.ITfCompartmentMgr_GetCompartment GUID_KBD_INPUTMODE_CONVERSION)
  if FAILED gc.1 then ts_relgcm P (-1) gc.2 else
  let gv := gc.2.call .ITfCompartment_GetValue P.ITfCompartment_GetValue
  let cur := tsf_cur gv.1.1 gv.1.2
  let nv := tsf_new_value set_zh cur
  let sv := gv.2.call (.ITfCompartment_SetValue ac.1.2 ⟨VT_I4, nv⟩)
              (P.ITfCompartment_SetValue ac.1.2 ⟨VT_I4, nv⟩)
  let result : Int := if SUCCEEDED sv.1 then 0 else -1
  ts_relgcm P result (sv.2.exec (.Release .pC) (P.Release .pC))

/-- Function `cmd_query` (lines 233-240). -/
def cmd_query (P : Platform σ) (w : World σ) : Int × World σ :=
  let w0 := w.log (.enter .cmd_query)
  let fg := w0.call .GetForegroundWindow P.GetForegroundWindow
  let r := imm32_query P fg.1 fg.2
  if 0 ≤ r.1 then (0, r.2.printf (if r.1 ≠ 0 then "zh\n" else "en\n")) else
  (0, r.2.printf "en\n")

/-- The first stage of `cmd_set` (lines 260-283), key injection.  The result
is `some 0` when the block printed `ok` and returned 0 from `cmd_set`, and
`none` when control fell through to the next stage. -/
def cmd_set_inject (P : Platform σ) (fg : Nat) (set_zh : Bool) (tk : ToggleKey)
    (w : World σ) : Option Int × World σ :=
  if tk = .KEY_SHIFT ∨ tk = .KEY_CTRL then
    let vk := if tk = .KEY_SHIFT then VK_SHIFT else VK_CONTROL
    let r := sendinput_toggle_if_needed P fg set_zh vk w
    if 0 ≤ r.1 then (some 0, r.2.printf "ok\n") else (none, r.2)
  else
    let r := sendinput_toggle_if_needed P fg set_zh VK_SHIFT w
    if r.1 = 1 then (some 0, r.2.printf "ok\n") else
    if r.1 = 0 then
      let s := r.2.exec (.Sleep 100) (P.Sleep 100)
      let after := imm32_query P fg s
      if 0 ≤ after.1 ∧ decide (after.1 = 1) = set_zh then (some 0, after.2.printf "ok\n") else
      let c := sendinput_inject_vk P VK_CONTROL after.2
      if c.1 = 0 then (some 0, c.2.printf "ok\n") else (none, c.2)
    else (none, r.2)

/-- The body of `cmd_set` once the language is recognised (lines 258-292):
the three stages in sequence. -/
def cmd_set_run (P : Platform σ) (set_zh : Bool) (tk : ToggleKey) (w : World σ) :
    Int × World σ :=
  let fg := w.call .GetForegroundWindow P.GetForegroundWindow
  let k := cmd_set_inject P fg.1 set_zh tk fg.2
  match k.1 with
  | some code => (code, k.2)
  | none =>
    let t := tsf_set P set_zh k.2
    if t.1 = 0 then (0, t.2.printf "ok\n") else
    let m := imm32_set P fg.1 set_zh t.2
    if m.1 = 0 then (0, m.2.printf "ok\n") else
    (1, m.2.eprintf "Failed: all methods failed\n")

/-- Function `cmd_set` (lines 252-293). -/
def cmd_set (P : Platform σ) (lang : String) (tk : ToggleKey) (w : World σ) :
    Int × World σ :=
  let w0 := w.log (.enter .cmd_set)
  if lang = "zh" then cmd_set_run P true tk w0
  else if lang = "en" then cmd_set_run P false tk w0
  else (1, w0.eprintf ("Unknown language: " ++ lang ++ "\n"))

/-! ## Observations on a trace -/

/-- The three strategies of the `set` cascade. -/
inductive Strategy where
  | KeyInjection
  | Compartment
  | Legacy
deriving DecidableEq, Repr

/-- The strategy an event starts, if any: each strategy has one entry point,
`sendinput_toggle_if_needed`, `tsf_set` and `imm32_set`. -/
def strategyOf : Event → Option Strategy
  | .enter .sendinput_toggle_if_needed => some .KeyInjection
  | .enter .tsf_set => some .Compartment
  | .enter .imm32_set => some .Legacy
  | _ => none

/-- The strategies started along a trace, in order. -/
def strategies (t : List Event) : List Strategy := t.filterMap strategyOf

/-- The argument of a `SendInput` call. -/
def inputOf : Event → Option (List INPUT)
  | .SendInput i => some i
  | _ => none

/-- The key-injection calls made along a trace, in order. -/
def injections (t : List Event) : List (List INPUT) := t.filterMap inputOf

/-- The value of a compartment write. -/
def writeOf : Event → Option VARIANT
  | .ITfCompartment_SetValue _ v => some v
  | _ => none

/-- The values written to the compartment along a trace, in order. -/
def writes (t : List Event) : List VARIANT := t.filterMap writeOf

/-- A fresh process on platform state `s`: nothing called, nothing printed. -/
def World.init (s : σ) : World σ := ⟨s, [], [], []⟩

/-! ## A model of the target input method

The header of the source describes the target: an input method that
intercepts a modifier key in the input pipeline and toggles its conversion
mode (`Shift` by default, `Ctrl` in some user configurations), that answers
`IMC_GETCONVERSIONMODE` with its conversion flags, and that is not reached by
writes to the global compartment. -/

/-- The state of the modelled desktop: the focused window, the keyboard
layout of its thread, its IME window, the conversion flags of the input
method, the key the input method is configured to toggle on, and the global
compartment cell. -/
structure Ime where
  fg : Nat
  hkl : Nat
  imeWnd : Nat
  flags : Nat
  toggleKey : Nat
  cell : VARIANT
deriving DecidableEq, Repr

/-- A responsive desktop: every call succeeds.  A key pair for the configured
toggle key flips the native bit of the conversion flags; any other key pair
is delivered and changes nothing.  `IMC_GETCONVERSIONMODE` returns the flags,
`IMC_SETCONVERSIONMODE` stores them.  The compartment cell is read and
written but the input method does not look at it. -/
def Ime.platform : Platform Ime where
  GetForegroundWindow s := (s.fg, s)
  GetWindowThreadProcessId _ s := (1, s)
  GetKeyboardLayout _ s := (s.hkl, s)
  ImmGetDefaultIMEWnd _ s := (s.imeWnd, s)
  SendMessageTimeoutW _ _ wParam lParam _ _ s :=
    if wParam = IMC_GETCONVERSIONMODE then ((1, s.flags), s)
    else if wParam = IMC_SETCONVERSIONMODE then ((1, 0), { s with flags := lParam })
    else ((1, 0), s)
  SendInput inputs s :=
    (inputs.length,
      if inputs = key_pair s.toggleKey then { s with flags := s.flags ^^^ IME_CMODE_NATIVE }
      else s)
  Sleep _ s := s
  CoInitializeEx _ s := (0, s)
  CoCreateInstance s := (0, s)
  ITfThreadMgr_Activate s := ((0, 1), s)
  ITfThreadMgr_GetGlobalCompartment s := (0, s)
  ITfCompartmentMgr_GetCompartment _ s := (0, s)
  ITfCompartment_GetValue s := ((0, s.cell), s)
  ITfCompartment_SetValue _ v s := (0, { s with cell := v })
  Release _ s := s
  ITfThreadMgr_Deactivate s := s
  CoUninit s := s

/-- A desktop whose focused window (handle 7) has the zh-CN layout and an IME
window (handle 9), with the given conversion flags and toggle key. -/
def Ime.desktop (flags toggleKey : Nat) : Ime :=
  ⟨7, 0x08040804, 9, flags, toggleKey, ⟨VT_EMPTY, 0⟩⟩

/-- The same desktop when the IME window answers the get-conversion-mode
request but the set-conversion-mode request times out: `SendMessageTimeoutW`
returns 0 for it and the conversion flags stay as they are. -/
def Ime.hung_on_set : Platform Ime :=
  { Ime.platform with
    SendMessageTimeoutW := fun hwnd msg wParam lParam fuFlags uTimeout s =>
      if wParam = IMC_SETCONVERSIONMODE then ((0, 0), s)
      else Ime.platform.SendMessageTimeoutW hwnd msg wParam lParam fuFlags uTimeout s }

/-- Windows SDK value of the variant type tag `VT_UI4`, an unsigned 32-bit integer. -/
def VT_UI4 : Nat := 19

/-- Windows SDK value of `E_FAIL` (0x80004005) as a signed 32-bit `HRESULT`. -/
def E_FAIL : Int := 0x80004005 - 2 ^ 32

/-- The same desktop when the compartment cannot be read:
`ITfCompartment_GetValue` fails with `E_FAIL` and fills nothing in, while the
write still goes through. -/
def Ime.unreadable : Platform Ime :=
  { Ime.platform with ITfCompartment_GetValue := fun s => ((E_FAIL, ⟨VT_EMPTY, 0⟩), s) }

/-- The platform state in which `tsf_set` reads the compartment (line 205),
after the five acquisition calls of lines 184-200. -/
def tsf_read_state (P : Platform σ) (s : σ) : σ :=
  let s0 := (P.CoInitializeEx COINIT_APARTMENTTHREADED s).2
  let s1 := (P.CoCreateInstance s0).2
  let s2 := (P.ITfThreadMgr_Activate s1).2
  let s3 := (P.ITfThreadMgr_GetGlobalCompartment s2).2
  (P.ITfCompartmentMgr_GetCompartment GUID_KBD_INPUTMODE_CONVERSION s3).2

/-- Three invocations in a row, each a fresh process on the platform state
the previous one left: `set zh`, `set en`, `query`.  The result is what the
query printed. -/
def round_trip (P : Platform σ) (tk : ToggleKey) (s : σ) : List String :=
  let a := cmd_set P "zh" tk (World.init s)
  let b := cmd_set P "en" tk (World.init a.2.plat)
  (cmd_query P (World.init b.2.plat)).2.stdout

/-- The key mode `tk` includes the key the input method toggles on. -/
def covers (tk : ToggleKey) (toggleKey : Nat) : Prop :=
  (tk = .KEY_SHIFT ∧ toggleKey = VK_SHIFT) ∨ (tk = .KEY_CTRL ∧ toggleKey = VK_CONTROL) ∨
  (tk = .KEY_AUTO ∧ (toggleKey = VK_SHIFT ∨ toggleKey = VK_CONTROL))

/-! ## Observation points of a `cmd_set` run

A process starts with an empty trace on some platform state `s`.  The
definitions below name the intermediate results of one `cmd_set` run, so that
statements can speak of what the State Reader answered or of what a stage
returned. -/

/-- The foreground window `cmd_set` resolves at line 258 and the world at
that point, for a fresh process on platform state `s`. -/
def cmd_set_start (P : Platform σ) (s : σ) : Nat × World σ :=
  ((World.init s).log (.enter .cmd_set)).call .GetForegroundWindow P.GetForegroundWindow

/-- The first answer of the State Reader in a `cmd_set` run: the call of
`imm32_query` at line 141, made from line 264 or 268. -/
def first_read (P : Platform σ) (s : σ) : Int × World σ :=
  imm32_query P (cmd_set_start P s).1
    ((cmd_set_start P s).2.log (.enter .sendinput_toggle_if_needed))

/-- The `Shift` injection of line 144 reached from line 268, after the first read. -/
def shift_inject (P : Platform σ) (s : σ) : Int × World σ :=
  sendinput_inject_vk P VK_SHIFT (first_read P s).2

/-- The second answer of the State Reader in an Auto run (line 273), after
the `Shift` injection and the wait of line 272. -/
def second_read (P : Platform σ) (s : σ) : Int × World σ :=
  imm32_query P (cmd_set_start P s).1 ((shift_inject P s).2.exec (.Sleep 100) (P.Sleep 100))

/-- The `Ctrl` injection of line 278, after the second read. -/
def ctrl_inject (P : Platform σ) (s : σ) : Int × World σ :=
  sendinput_inject_vk P VK_CONTROL (second_read P s).2

/-- The mode a State Reader answer stands for equals the target: the test
`(cur == 1) == (int)set_zh` of lines 143 and 274. -/
def is_target (set_zh : Bool) (r : Int) : Bool := decide (decide (r = 1) = set_zh)

/-- The first stage of a `cmd_set` run, key injection: `some 0` when it
reported Applied (printed `ok`, returned 0), `none` otherwise. -/
def key_stage (P : Platform σ) (set_zh : Bool) (tk : ToggleKey) (s : σ) :
    Option Int × World σ :=
  cmd_set_inject P (cmd_set_start P s).1 set_zh tk (cmd_set_start P s).2

/-- The second stage as it would run after the first: `tsf_set`, 0 = Applied. -/
def compartment_stage (P : Platform σ) (set_zh : Bool) (tk : ToggleKey) (s : σ) :
    Int × World σ :=
  tsf_set P set_zh (key_stage P set_zh tk s).2

/-- The third stage as it would run after the second: `imm32_set`, 0 = Applied. -/
def legacy_stage (P : Platform σ) (set_zh : Bool) (tk : ToggleKey) (s : σ) :
    Int × World σ :=
  imm32_set P (cmd_set_start P s).1 set_zh (compartment_stage P set_zh tk s).2

/-- What a run from `w` to `w'` added: the strategies `ss` it started, the key
injections `ks` it made, and nothing printed. -/
def Frame (w w' : World σ) (ss : List Strategy) (ks : List (List INPUT)) : Prop :=
  strategies w'.trace = strategies w.trace ++ ss ∧
  injections w'.trace = injections w.trace ++ ks ∧
  w'.stdout = w.stdout ∧ w'.stderr = w.stderr

/-! ## Basic facts about a world -/

@[simp] theorem World.log_trace (e : Event) (w : World σ) :
    (w.log e).trace = w.trace ++ [e] := rfl

@[simp] theorem World.log_stdout (e : Event) (w : World σ) : (w.log e).stdout = w.stdout := rfl

@[simp] theorem World.log_stderr (e : Event) (w : World σ) : (w.log e).stderr = w.stderr := rfl

@[simp] theorem World.log_plat (e : Event) (w : World σ) : (w.log e).plat = w.plat := rfl

@[simp] theorem World.call_fst {α : Type} (e : Event) (f : σ → α × σ) (w : World σ) :
    (w.call e f).1 = (f w.plat).1 := rfl

@[simp] theorem World.call_trace {α : Type} (e : Event) (f : σ → α × σ) (w : World σ) :
    (w.call e f).2.trace = w.trace ++ [e] := rfl

@[simp] theorem World.call_stdout {α : Type} (e : Event) (f : σ → α × σ) (w : World σ) :
    (w.call e f).2.stdout = w.stdout := rfl

@[simp] theorem World.call_stderr {α : Type} (e : Event) (f : σ → α × σ) (w : World σ) :
    (w.call e f).2.stderr = w.stderr := rfl

@[simp] theorem World.call_plat {α : Type} (e : Event) (f : σ → α × σ) (w : World σ) :
    (w.call e f).2.plat = (f w.plat).2 := rfl

@[simp] theorem World.exec_trace (e : Event) (f : σ → σ) (w : World σ) :
    (w.exec e f).trace = w.trace ++ [e] := rfl

@[simp] theorem World.exec_stdout (e : Event) (f : σ → σ) (w : World σ) :
    (w.exec e f).stdout = w.stdout := rfl

@[simp] theorem World.exec_stderr (e : Event) (f : σ → σ) (w : World σ) :
    (w.exec e f).stderr = w.stderr := rfl

@[simp] theorem World.exec_plat (e : Event) (f : σ → σ) (w : World σ) :
    (w.exec e f).plat = f w.plat := rfl

@[simp] theorem World.printf_trace (s : String) (w : World σ) :
    (w.printf s).trace = w.trace := rfl

@[simp] theorem World.printf_stdout (s : String) (w : World σ) :
    (w.printf s).stdout = w.stdout ++ [s] := rfl

@[simp] theorem World.printf_stderr (s : String) (w : World σ) :
    (w.printf s).stderr = w.stderr := rfl

@[simp] theorem World.eprintf_trace (s : String) (w : World σ) :
    (w.eprintf s).trace = w.trace := rfl

@[simp] theorem World.eprintf_stdout (s : String) (w : World σ) :
    (w.eprintf s).stdout = w.stdout := rfl

@[simp] theorem World.eprintf_stderr (s : String) (w : World σ) :
    (w.eprintf s).stderr = w.stderr ++ [s] := rfl

@[simp] theorem strategies_append (a b : List Event) :
    strategies (a ++ b) = strategies a ++ strategies b := by
  simp [strategies]

@[simp] theorem injections_append (a b : List Event) :
    injections (a ++ b) = injections a ++ injections b := by
  simp [injections]

@[simp] theorem writes_append (a b : List Event) :
    writes (a ++ b) = writes a ++ writes b := by
  simp [writes]

@[simp] theorem strategies_nil : strategies [] = [] := rfl

@[simp] theorem injections_nil : injections [] = [] := rfl

@[simp] theorem writes_nil : writes [] = [] := rfl

@[simp] theorem strategies_cons (e : Event) (t : List Event) :
    strategies (e :: t) = (strategyOf e).toList ++ strategies t := by
  cases h : strategyOf e <;> simp [strategies, List.filterMap, h]

@[simp] theorem injections_cons (e : Event) (t : List Event) :
    injections (e :: t) = (inputOf e).toList ++ injections t := by
  cases h : inputOf e <;> simp [injections, List.filterMap, h]

@[simp] theorem writes_cons (e : Event) (t : List Event) :
    writes (e :: t) = (writeOf e).toList ++ writes t := by
  cases h : writeOf e <;> simp [writes, List.filterMap, h]

/-! ## The State Reader -/

theorem is_chinese_ime_frame (P : Platform σ) (hwnd : Nat) (w : World σ) :
    Frame w (is_chinese_ime P hwnd w).2 [] [] := by
  simp [Frame, is_chinese_ime, strategyOf, inputOf]

theorem imm32_query_frame (P : Platform σ) (fg : Nat) (w : World σ) :
    Frame w (imm32_query P fg w).2 [] [] := by
  simp only [imm32_query]
  split_ifs <;>
    simp [Frame, is_chinese_ime, get_conversion_mode, strategyOf, inputOf]

theorem imm32_query_range (P : Platform σ) (fg : Nat) (w : World σ) :
    (imm32_query P fg w).1 = -1 ∨ (imm32_query P fg w).1 = 0 ∨ (imm32_query P fg w).1 = 1 := by
  simp only [imm32_query]
  split_ifs <;> simp

@[simp] theorem imm32_query_strategies (P : Platform σ) (fg : Nat) (w : World σ) :
    strategies (imm32_query P fg w).2.trace = strategies w.trace := by
  simpa using (imm32_query_frame P fg w).1

@[simp] theorem imm32_query_injections (P : Platform σ) (fg : Nat) (w : World σ) :
    injections (imm32_query P fg w).2.trace = injections w.trace := by
  simpa using (imm32_query_frame P fg w).2.1

@[simp] theorem imm32_query_stdout (P : Platform σ) (fg : Nat) (w : World σ) :
    (imm32_query P fg w).2.stdout = w.stdout := (imm32_query_frame P fg w).2.2.1

@[simp] theorem imm32_query_stderr (P : Platform σ) (fg : Nat) (w : World σ) :
    (imm32_query P fg w).2.stderr = w.stderr := (imm32_query_frame P fg w).2.2.2

/-! ## The strategies -/

theorem imm32_set_frame (P : Platform σ) (fg : Nat) (set_zh : Bool) (w : World σ) :
    Frame w (imm32_set P fg set_zh w).2 [.Legacy] [] := by
  simp only [imm32_set]
  split_ifs <;>
    simp [Frame, is_chinese_ime, get_conversion_mode, strategyOf, inputOf]

@[simp] theorem imm32_set_strategies (P : Platform σ) (fg : Nat) (set_zh : Bool) (w : World σ) :
    strategies (imm32_set P fg set_zh w).2.trace = strategies w.trace ++ [.Legacy] :=
  (imm32_set_frame P fg set_zh w).1

@[simp] theorem imm32_set_injections (P : Platform σ) (fg : Nat) (set_zh : Bool) (w : World σ) :
    injections (imm32_set P fg set_zh w).2.trace = injections w.trace := by
  simpa using (imm32_set_frame P fg set_zh w).2.1

@[simp] theorem imm32_set_stdout (P : Platform σ) (fg : Nat) (set_zh : Bool) (w : World σ) :
    (imm32_set P fg set_zh w).2.stdout = w.stdout := (imm32_set_frame P fg set_zh w).2.2.1

@[simp] theorem imm32_set_stderr (P : Platform σ) (fg : Nat) (set_zh : Bool) (w : World σ) :
    (imm32_set P fg set_zh w).2.stderr = w.stderr := (imm32_set_frame P fg set_zh w).2.2.2

theorem tsf_set_frame (P : Platform σ) (set_zh : Bool) (w : World σ) :
    Frame w (tsf_set P set_zh w).2 [.Compartment] [] := by
  simp only [tsf_set]
  split_ifs <;>
    simp [Frame, ts_done, ts_rel, ts_deact, ts_relgcm, strategyOf, inputOf]

@[simp] theorem tsf_set_strategies (P : Platform σ) (set_zh : Bool) (w : World σ) :
    strategies (tsf_set P set_zh w).2.trace = strategies w.trace ++ [.Compartment] :=
  (tsf_set_frame P set_zh w).1

@[simp] theorem tsf_set_injections (P : Platform σ) (set_zh : Bool) (w : World σ) :
    injections (tsf_set P set_zh w).2.trace = injections w.trace := by
  simpa using (tsf_set_frame P set_zh w).2.1

@[simp] theorem tsf_set_stdout (P : Platform σ) (set_zh : Bool) (w : World σ) :
    (tsf_set P set_zh w).2.stdout = w.stdout := (tsf_set_frame P set_zh w).2.2.1

@[simp] theorem tsf_set_stderr (P : Platform σ) (set_zh : Bool) (w : World σ) :
    (tsf_set P set_zh w).2.stderr = w.stderr := (tsf_set_frame P set_zh w).2.2.2

theorem sendinput_inject_vk_frame (P : Platform σ) (vk : Nat) (w : World σ) :
    Frame w (sendinput_inject_vk P vk w).2 [] [key_pair vk] := by
  simp [Frame, sendinput_inject_vk, strategyOf, inputOf]

@[simp] theorem sendinput_inject_vk_strategies (P : Platform σ) (vk : Nat) (w : World σ) :
    strategies (sendinput_inject_vk P vk w).2.trace = strategies w.trace := by
  simpa using (sendinput_inject_vk_frame P vk w).1

@[simp] theorem sendinput_inject_vk_injections (P : Platform σ) (vk : Nat) (w : World σ) :
    injections (sendinput_inject_vk P vk w).2.trace = injections w.trace ++ [key_pair vk] :=
  (sendinput_inject_vk_frame P vk w).2.1

@[simp] theorem sendinput_inject_vk_stdout (P : Platform σ) (vk : Nat) (w : World σ) :
    (sendinput_inject_vk P vk w).2.stdout = w.stdout := (sendinput_inject_vk_frame P vk w).2.2.1

@[simp] theorem sendinput_inject_vk_stderr (P : Platform σ) (vk : Nat) (w : World σ) :
    (sendinput_inject_vk P vk w).2.stderr = w.stderr := (sendinput_inject_vk_frame P vk w).2.2.2

theorem sendinput_inject_vk_range (P : Platform σ) (vk : Nat) (w : World σ) :
    (sendinput_inject_vk P vk w).1 = 0 ∨ (sendinput_inject_vk P vk w).1 = -1 := by
  simp only [sendinput_inject_vk]
  split_ifs <;> simp

theorem recognised_ne : ("en" : String) ≠ "zh" := by decide

/-- With a recognised language `cmd_set` runs the three stages with
`set_zh` true exactly for `"zh"`. -/
theorem cmd_set_recognised (P : Platform σ) (lang : String) (tk : ToggleKey) (w : World σ)
    (h : lang = "zh" ∨ lang = "en") :
    cmd_set P lang tk w = cmd_set_run P (decide (lang = "zh")) tk (w.log (.enter .cmd_set)) := by
  rcases h with h | h
  · subst h; simp [cmd_set]
  · subst h; simp [cmd_set, recognised_ne]

theorem and_one_ne_zero_iff (n : Nat) : n &&& IME_CMODE_NATIVE ≠ 0 ↔ n.testBit 0 = true := by
  simp only [IME_CMODE_NATIVE, Nat.and_one_is_mod, Nat.testBit_zero, decide_eq_true_eq]
  omega

theorem cmd_query_prints_en (P : Platform σ) (w : World σ)
    (h : (imm32_query P
      ((w.log (.enter .cmd_query)).call .GetForegroundWindow P.GetForegroundWindow).1
      ((w.log (.enter .cmd_query)).call .GetForegroundWindow P.GetForegroundWindow).2).1 = 0) :
    (cmd_query P w).2.stdout = w.stdout ++ ["en\n"] := by
  simp only [World.call_fst, World.log_plat] at h
  simp [cmd_query, h]

/-! ## The key-injection stage, case by case -/

theorem cmd_set_inject_single (P : Platform σ) (fg : Nat) (set_zh : Bool) (tk : ToggleKey)
    (w : World σ) (htk : tk = .KEY_SHIFT ∨ tk = .KEY_CTRL) :
    let q0 := imm32_query P fg (w.log (.enter .sendinput_toggle_if_needed))
    let k := sendinput_inject_vk P (if tk = .KEY_SHIFT then VK_SHIFT else VK_CONTROL) q0.2
    cmd_set_inject P fg set_zh tk w =
      (if q0.1 < 0 then (none, q0.2)
      else if is_target set_zh q0.1 then (some 0, q0.2.printf "ok\n")
      else if k.1 = 0 then (some 0, k.2.printf "ok\n")
      else (none, k.2)) := by
  simp only [cmd_set_inject, sendinput_toggle_if_needed, is_target, htk, if_true]
  generalize imm32_query P fg (w.log (.enter .sendinput_toggle_if_needed)) = q0
  have hr := sendinput_inject_vk_range P (if tk = .KEY_SHIFT then VK_SHIFT else VK_CONTROL) q0.2
  generalize sendinput_inject_vk P (if tk = .KEY_SHIFT then VK_SHIFT else VK_CONTROL) q0.2 = k
    at hr ⊢
  split_ifs <;> simp_all

theorem cmd_set_inject_auto (P : Platform σ) (fg : Nat) (set_zh : Bool) (w : World σ) :
    let q0 := imm32_query P fg (w.log (.enter .sendinput_toggle_if_needed))
    let sh := sendinput_inject_vk P VK_SHIFT q0.2
    let q1 := imm32_query P fg (sh.2.exec (.Sleep 100) (P.Sleep 100))
    let c := sendinput_inject_vk P VK_CONTROL q1.2
    cmd_set_inject P fg set_zh .KEY_AUTO w =
      (if q0.1 < 0 then (none, q0.2)
      else if is_target set_zh q0.1 then (some 0, q0.2.printf "ok\n")
      else if sh.1 ≠ 0 then (none, sh.2)
      else if 0 ≤ q1.1 ∧ is_target set_zh q1.1 then (some 0, q1.2.printf "ok\n")
      else if c.1 = 0 then (some 0, c.2.printf "ok\n")
      else (none, c.2)) := by
  intro q0 sh q1 c
  have hq : q0.1 = -1 ∨ q0.1 = 0 ∨ q0.1 = 1 := imm32_query_range P fg _
  have hr : sh.1 = 0 ∨ sh.1 = -1 := sendinput_inject_vk_range P VK_SHIFT q0.2
  have e : cmd_set_inject P fg set_zh .KEY_AUTO w =
      (let r := (if q0.1 < 0 then (-1, q0.2) else
                 if decide (q0.1 = 1) = set_zh then (1, q0.2) else sh)
       if r.1 = 1 then (some 0, r.2.printf "ok\n") else
       if r.1 = 0 then
         (let after := imm32_query P fg (r.2.exec (.Sleep 100) (P.Sleep 100))
          if 0 ≤ after.1 ∧ decide (after.1 = 1) = set_zh then (some 0, after.2.printf "ok\n") else
          let c := sendinput_inject_vk P VK_CONTROL after.2
          if c.1 = 0 then (some 0, c.2.printf "ok\n") else (none, c.2))
       else (none, r.2)) := by
    simp [cmd_set_inject, sendinput_toggle_if_needed, q0, sh]
  rw [e]
  by_cases h0 : q0.1 < 0
  · have : ¬ ((-1 : Int) = 1) := by decide
    simp [h0]
  · by_cases h1 : decide (q0.1 = 1) = set_zh
    · simp [h0, h1, is_target]
    · rcases hr with hs | hs
      · simp [h0, h1, is_target, hs, q1, c]
      · simp [h0, h1, is_target, hs]

theorem cmd_set_inject_frame (P : Platform σ) (fg : Nat) (set_zh : Bool) (tk : ToggleKey)
    (w : World σ) :
    strategies (cmd_set_inject P fg set_zh tk w).2.trace = strategies w.trace ++ [.KeyInjection] ∧
    (cmd_set_inject P fg set_zh tk w).2.stderr = w.stderr ∧
    (((cmd_set_inject P fg set_zh tk w).1 = some 0 ∧
        (cmd_set_inject P fg set_zh tk w).2.stdout = w.stdout ++ ["ok\n"]) ∨
      ((cmd_set_inject P fg set_zh tk w).1 = none ∧
        (cmd_set_inject P fg set_zh tk w).2.stdout = w.stdout)) := by
  cases tk
  · rw [cmd_set_inject_auto]
    split_ifs <;> simp [strategyOf]
  · rw [cmd_set_inject_single P fg set_zh _ w (Or.inl rfl)]
    split_ifs <;> simp [strategyOf]
  · rw [cmd_set_inject_single P fg set_zh _ w (Or.inr rfl)]
    split_ifs <;> simp [strategyOf]

theorem cmd_set_fresh (P : Platform σ) (lang : String) (tk : ToggleKey) (s : σ)
    (h : lang = "zh" ∨ lang = "en") :
    cmd_set P lang tk (World.init s) =
      (match (key_stage P (decide (lang = "zh")) tk s).1 with
      | some code => (code, (key_stage P (decide (lang = "zh")) tk s).2)
      | none =>
        if (compartment_stage P (decide (lang = "zh")) tk s).1 = 0 then
          (0, (compartment_stage P (decide (lang = "zh")) tk s).2.printf "ok\n")
        else if (legacy_stage P (decide (lang = "zh")) tk s).1 = 0 then
          (0, (legacy_stage P (decide (lang = "zh")) tk s).2.printf "ok\n")
        else (1, (legacy_stage P (decide (lang = "zh")) tk s).2.eprintf
          "Failed: all methods failed\n")) := by
  rw [cmd_set_recognised P lang tk _ h]
  rfl

theorem key_stage_frame (P : Platform σ) (set_zh : Bool) (tk : ToggleKey) (s : σ) :
    strategies (key_stage P set_zh tk s).2.trace = [.KeyInjection] ∧
    (key_stage P set_zh tk s).2.stderr = [] ∧
    (((key_stage P set_zh tk s).1 = some 0 ∧ (key_stage P set_zh tk s).2.stdout = ["ok\n"]) ∨
      ((key_stage P set_zh tk s).1 = none ∧ (key_stage P set_zh tk s).2.stdout = [])) := by
  have h := cmd_set_inject_frame P (cmd_set_start P s).1 set_zh tk (cmd_set_start P s).2
  have e1 : strategies (cmd_set_start P s).2.trace = [] := by
    simp [cmd_set_start, World.init, strategyOf]
  have e2 : (cmd_set_start P s).2.stdout = [] := rfl
  have e3 : (cmd_set_start P s).2.stderr = [] := rfl
  rw [e1, e2, e3] at h
  simpa [key_stage] using h

theorem key_stage_unknown (P : Platform σ) (set_zh : Bool) (tk : ToggleKey) (s : σ)
    (h : (first_read P s).1 < 0) :
    key_stage P set_zh tk s = (none, (first_read P s).2) := by
  have h' : (imm32_query P (cmd_set_start P s).1
      ((cmd_set_start P s).2.log (.enter .sendinput_toggle_if_needed))).1 < 0 := h
  cases tk
  · simp only [key_stage]
    rw [cmd_set_inject_auto]
    simp only [h', if_true]
    rfl
  · simp only [key_stage]
    rw [cmd_set_inject_single P _ set_zh _ _ (Or.inl rfl)]
    simp only [h', if_true]
    rfl
  · simp only [key_stage]
    rw [cmd_set_inject_single P _ set_zh _ _ (Or.inr rfl)]
    simp only [h', if_true]
    rfl

theorem cmd_set_trace (P : Platform σ) (lang : String) (tk : ToggleKey) (s : σ)
    (h : lang = "zh" ∨ lang = "en") :
    injections (cmd_set P lang tk (World.init s)).2.trace =
      injections (key_stage P (decide (lang = "zh")) tk s).2.trace ∧
    strategies (cmd_set P lang tk (World.init s)).2.trace =
      (if (key_stage P (decide (lang = "zh")) tk s).1 = none then
        if (compartment_stage P (decide (lang = "zh")) tk s).1 = 0 then
          [.KeyInjection, .Compartment]
        else [.KeyInjection, .Compartment, .Legacy]
      else [.KeyInjection]) := by
  rw [cmd_set_fresh P lang tk s h]
  obtain ⟨k1, -, k3⟩ := key_stage_frame P (decide (lang = "zh")) tk s
  rcases k3 with ⟨ka, -⟩ | ⟨ka, -⟩
  · rw [ka]; simp [k1]
  · rw [ka]
    simp only [if_true]
    split_ifs <;> simp [compartment_stage, legacy_stage, k1]

theorem start_injections (P : Platform σ) (s : σ) :
    injections (cmd_set_start P s).2.trace = [] := by
  simp [cmd_set_start, World.init, inputOf]

theorem first_read_injections (P : Platform σ) (s : σ) :
    injections (first_read P s).2.trace = [] := by
  simp [first_read, start_injections, inputOf]

theorem shift_inject_injections (P : Platform σ) (s : σ) :
    injections (shift_inject P s).2.trace = [key_pair VK_SHIFT] := by
  simp [shift_inject, first_read_injections]

theorem second_read_injections (P : Platform σ) (s : σ) :
    injections (second_read P s).2.trace = [key_pair VK_SHIFT] := by
  simp [second_read, shift_inject_injections, inputOf]

theorem ctrl_inject_injections (P : Platform σ) (s : σ) :
    injections (ctrl_inject P s).2.trace = [key_pair VK_SHIFT, key_pair VK_CONTROL] := by
  simp [ctrl_inject, second_read_injections]

theorem key_stage_auto (P : Platform σ) (set_zh : Bool) (s : σ) :
    key_stage P set_zh .KEY_AUTO s =
      (if (first_read P s).1 < 0 then (none, (first_read P s).2)
      else if is_target set_zh (first_read P s).1 then
        (some 0, (first_read P s).2.printf "ok\n")
      else if (shift_inject P s).1 ≠ 0 then (none, (shift_inject P s).2)
      else if 0 ≤ (second_read P s).1 ∧ is_target set_zh (second_read P s).1 then
        (some 0, (second_read P s).2.printf "ok\n")
      else if (ctrl_inject P s).1 = 0 then (some 0, (ctrl_inject P s).2.printf "ok\n")
      else (none, (ctrl_inject P s).2)) :=
  cmd_set_inject_auto P (cmd_set_start P s).1 set_zh (cmd_set_start P s).2

theorem key_stage_single (P : Platform σ) (set_zh : Bool) (tk : ToggleKey) (s : σ)
    (htk : tk = .KEY_SHIFT ∨ tk = .KEY_CTRL) :
    key_stage P set_zh tk s =
      (if (first_read P s).1 < 0 then (none, (first_read P s).2)
      else if is_target set_zh (first_read P s).1 then
        (some 0, (first_read P s).2.printf "ok\n")
      else if (sendinput_inject_vk P (if tk = .KEY_SHIFT then VK_SHIFT else VK_CONTROL)
          (first_read P s).2).1 = 0 then
        (some 0, (sendinput_inject_vk P (if tk = .KEY_SHIFT then VK_SHIFT else VK_CONTROL)
          (first_read P s).2).2.printf "ok\n")
      else (none, (sendinput_inject_vk P (if tk = .KEY_SHIFT then VK_SHIFT else VK_CONTROL)
          (first_read P s).2).2)) :=
  cmd_set_inject_single P (cmd_set_start P s).1 set_zh tk (cmd_set_start P s).2 htk

theorem key_pair_ne : key_pair VK_CONTROL ≠ key_pair VK_SHIFT := by decide

/-! ## The compartment value -/

theorem testBit_one (i : Nat) : Int.testBit 1 i = decide (i = 0) := by
  show Nat.testBit 1 i = _
  have h := @Nat.testBit_one_eq_true_iff_self_eq_zero i
  cases hb : Nat.testBit 1 i
  · simp only [hb, Bool.false_eq_true, false_iff] at h
    simp [h]
  · simp only [hb, true_iff] at h
    simp [h]

theorem tsf_new_value_bits (set_zh : Bool) (cur : Int) :
    (tsf_new_value set_zh cur).testBit 0 = set_zh ∧
    ∀ i, i ≠ 0 → (tsf_new_value set_zh cur).testBit i = cur.testBit i := by
  cases set_zh
  · simp only [tsf_new_value, TF_CONVERSIONMODE_NATIVE, Bool.false_eq_true, if_false,
      Int.testBit_land, Int.testBit_lnot, testBit_one]
    constructor
    · simp
    · intro i hi; simp [hi]
  · simp only [tsf_new_value, TF_CONVERSIONMODE_NATIVE, if_true, Int.testBit_lor, testBit_one]
    constructor
    · simp
    · intro i hi; simp [hi]

theorem int_lor_zero (n : Int) : Int.lor n 0 = n := by
  cases n with
  | ofNat m =>
    show Int.ofNat (m ||| 0) = Int.ofNat m
    rw [Nat.or_zero]
  | negSucc m =>
    show Int.negSucc (Nat.ldiff m 0) = Int.negSucc m
    simp [Nat.ldiff, Nat.bitwise_zero_right]

theorem int_land_neg_one (n : Int) : Int.land n (-1) = n := by
  cases n with
  | ofNat m =>
    show Int.ofNat (Nat.ldiff m 0) = Int.ofNat m
    simp [Nat.ldiff, Nat.bitwise_zero_right]
  | negSucc m =>
    show Int.negSucc (m ||| 0) = Int.negSucc m
    rw [Nat.or_zero]

theorem tsf_new_value_range (set_zh : Bool) (cur : Int)
    (h : -2 ^ 31 ≤ cur ∧ cur < 2 ^ 31) :
    -2 ^ 31 ≤ tsf_new_value set_zh cur ∧ tsf_new_value set_zh cur < 2 ^ 31 := by
  induction cur using Int.bitCasesOn with
  | _ b n =>
    have h1 : (1 : Int) = Int.bit true 0 := by decide
    have h2 : Int.lnot 1 = Int.bit false (-1) := by decide
    rw [Int.bit_val] at h
    cases set_zh
    · simp only [tsf_new_value, TF_CONVERSIONMODE_NATIVE, Bool.false_eq_true, if_false]
      rw [h2, Int.land_bit, int_land_neg_one, Int.bit_val]
      cases b <;> simp at h ⊢ <;> omega
    · simp only [tsf_new_value, TF_CONVERSIONMODE_NATIVE, if_true]
      rw [h1, Int.lor_bit, int_lor_zero, Int.bit_val]
      cases b <;> simp at h ⊢ <;> omega

/-! ## The modelled desktop -/

@[simp] theorem World.printf_plat (s : String) (w : World σ) : (w.printf s).plat = w.plat := rfl

@[simp] theorem World.eprintf_plat (s : String) (w : World σ) : (w.eprintf s).plat = w.plat := rfl

theorem xor_one_and_one (n : Nat) : (n ^^^ 1) &&& 1 = 1 - (n &&& 1) := by
  simp only [Nat.and_one_is_mod]
  have : (n ^^^ 1) % 2 = (n + 1) % 2 := Nat.xor_mod_two_eq
  omega

theorem desktop_lang : PRIMARYLANGID (LOWORD 0x08040804) = LANG_CHINESE := by decide

theorem model_query (f k : Nat) (w : World Ime) (hw : w.plat = Ime.desktop f k) :
    (imm32_query Ime.platform 7 w).1 = (if f &&& 1 ≠ 0 then 1 else 0) ∧
    (imm32_query Ime.platform 7 w).2.plat = Ime.desktop f k := by
  have hl := desktop_lang
  simp only [imm32_query, is_chinese_ime, get_conversion_mode, World.call_fst, World.call_plat,
    World.log_plat, hw, Ime.platform, Ime.desktop, hl, IME_CMODE_NATIVE]
  simp [hw, Ime.desktop]

theorem model_inject (f k vk : Nat) (w : World Ime) (hw : w.plat = Ime.desktop f k) :
    (sendinput_inject_vk Ime.platform vk w).1 = 0 ∧
    (sendinput_inject_vk Ime.platform vk w).2.plat =
      Ime.desktop (if vk = k then f ^^^ 1 else f) k := by
  have hk : key_pair vk = key_pair k ↔ vk = k := by
    constructor
    · intro h
      simp only [key_pair, List.cons.injEq, INPUT.mk.injEq, true_and, and_true] at h
      exact h.1
    · intro h; rw [h]
  simp only [sendinput_inject_vk, World.call_fst, World.call_plat, World.log_plat, hw,
    Ime.platform, Ime.desktop, hk, IME_CMODE_NATIVE]
  constructor
  · simp [key_pair]
  · split_ifs <;> rfl

theorem model_first_read (f k : Nat) :
    (first_read Ime.platform (Ime.desktop f k)).1 = (if f &&& 1 ≠ 0 then 1 else 0) ∧
    (first_read Ime.platform (Ime.desktop f k)).2.plat = Ime.desktop f k :=
  model_query f k _ rfl

/-- The platform state a `set` leaves on the modelled desktop, when the key
mode includes the configured toggle key: the native bit equals the target. -/
theorem model_set (f k : Nat) (tk : ToggleKey) (lang : String) (hc : covers tk k)
    (h : lang = "zh" ∨ lang = "en") :
    ∃ f', (cmd_set Ime.platform lang tk (World.init (Ime.desktop f k))).2.plat = Ime.desktop f' k ∧
      (f' &&& 1 ≠ 0 ↔ lang = "zh") := by
  obtain ⟨q1, q2⟩ := model_first_read f k
  have hx := xor_one_and_one f
  have hm : f &&& 1 = 0 ∨ f &&& 1 = 1 := by
    simp only [Nat.and_one_is_mod]; omega
  have e := cmd_set_fresh Ime.platform lang tk (Ime.desktop f k) h
  have h0 : ¬ (first_read Ime.platform (Ime.desktop f k)).1 < 0 := by
    rw [q1]; split_ifs <;> decide
  by_cases ht : is_target (decide (lang = "zh")) (first_read Ime.platform (Ime.desktop f k)).1 = true
  · -- already in the target mode
    refine ⟨f, ?_, ?_⟩
    · have hk : key_stage Ime.platform (decide (lang = "zh")) tk (Ime.desktop f k) =
          (some 0, (first_read Ime.platform (Ime.desktop f k)).2.printf "ok\n") := by
        cases tk
        · rw [key_stage_auto]; simp only [h0, ht, if_true, if_false]
        · rw [key_stage_single _ _ _ _ (Or.inl rfl)]; simp only [h0, ht, if_true, if_false]
        · rw [key_stage_single _ _ _ _ (Or.inr rfl)]; simp only [h0, ht, if_true, if_false]
      have hr : cmd_set Ime.platform lang tk (World.init (Ime.desktop f k)) =
          (0, (first_read Ime.platform (Ime.desktop f k)).2.printf "ok\n") := by
        rw [e, hk]
      rw [hr, World.printf_plat]
      exact q2
    · rw [q1] at ht
      simp only [is_target, decide_eq_true_eq] at ht
      rcases h with h | h
      · subst h
        simp only [decide_True, true_iff] at ht ⊢
        rcases hm with hb | hb
        · rw [hb] at ht; simp at ht
        · rw [hb]; decide
      · subst h
        have hne := recognised_ne
        simp only [hne, decide_False, iff_false, not_not] at ht ⊢
        rcases hm with hb | hb
        · exact hb
        · rw [hb] at ht; simp at ht
  · have ht' : is_target (decide (lang = "zh"))
        (first_read Ime.platform (Ime.desktop f k)).1 = false := by
      simpa using ht
    -- the native bit differs from the target, so the flipped flags have it right
    have hflip : ((f ^^^ 1) &&& 1 ≠ 0 ↔ lang = "zh") := by
      rw [q1] at ht'
      simp only [is_target, decide_eq_false_iff_not] at ht'
      rcases h with h | h
      · subst h
        simp only [decide_True, true_iff, iff_true] at ht' ⊢
        rcases hm with hb | hb
        · rw [hx, hb]; decide
        · rw [hb] at ht'; simp at ht'
      · subst h
        have hne := recognised_ne
        simp only [hne, decide_False, iff_false, not_not] at ht' ⊢
        rcases hm with hb | hb
        · rw [hb] at ht'; simp at ht'
        · rw [hx, hb]
    refine ⟨f ^^^ 1, ?_, hflip⟩
    rcases hc with ⟨rfl, rfl⟩ | ⟨rfl, rfl⟩ | ⟨rfl, rfl | rfl⟩
    · obtain ⟨i1, i2⟩ := model_inject f VK_SHIFT VK_SHIFT _ q2
      have hk := key_stage_single Ime.platform (decide (lang = "zh")) .KEY_SHIFT
        (Ime.desktop f VK_SHIFT) (Or.inl rfl)
      simp only [h0, ht', if_true, if_false, i1, Bool.false_eq_true] at hk
      rw [e, hk, World.printf_plat, i2]
      simp
    · obtain ⟨i1, i2⟩ := model_inject f VK_CONTROL VK_CONTROL _ q2
      have hk := key_stage_single Ime.platform (decide (lang = "zh")) .KEY_CTRL
        (Ime.desktop f VK_CONTROL) (Or.inr rfl)
      have hne : ¬ (ToggleKey.KEY_CTRL = ToggleKey.KEY_SHIFT) := by decide
      simp only [h0, ht', if_true, if_false, i1, hne, Bool.false_eq_true] at hk
      rw [e, hk, World.printf_plat, i2]
      simp
    · obtain ⟨i1, i2⟩ := model_inject f VK_SHIFT VK_SHIFT _ q2
      have i2' : (shift_inject Ime.platform (Ime.desktop f VK_SHIFT)).2.plat =
          Ime.desktop (f ^^^ 1) VK_SHIFT := by
        simpa [shift_inject] using i2
      obtain ⟨s1, s2⟩ := model_query (f ^^^ 1) VK_SHIFT
        ((shift_inject Ime.platform (Ime.desktop f VK_SHIFT)).2.exec (.Sleep 100)
          (Ime.platform.Sleep 100)) (by rw [World.exec_plat, i2']; rfl)
      have hconf : 0 ≤ (second_read Ime.platform (Ime.desktop f VK_SHIFT)).1 ∧
          is_target (decide (lang = "zh"))
            (second_read Ime.platform (Ime.desktop f VK_SHIFT)).1 = true := by
        have s1' : (second_read Ime.platform (Ime.desktop f VK_SHIFT)).1 =
            if (f ^^^ 1) &&& 1 ≠ 0 then 1 else 0 := s1
        rw [s1']
        by_cases hz : lang = "zh"
        · rw [if_pos (hflip.mpr hz)]
          exact ⟨by decide, by simp [is_target, hz]⟩
        · rw [if_neg (fun hh => hz (hflip.mp hh))]
          exact ⟨by decide, by simp [is_target, hz]⟩
      have hk := key_stage_auto Ime.platform (decide (lang = "zh")) (Ime.desktop f VK_SHIFT)
      have i1' : (shift_inject Ime.platform (Ime.desktop f VK_SHIFT)).1 = 0 := i1
      simp only [h0, ht', if_true, if_false, i1', hconf, ne_eq, not_true_eq_false, and_self,
        Bool.false_eq_true] at hk
      rw [e, hk, World.printf_plat]
      exact s2
    · obtain ⟨i1, i2⟩ := model_inject f VK_CONTROL VK_SHIFT _ q2
      have hvk : ¬ (VK_SHIFT = VK_CONTROL) := by decide
      have i2' : (shift_inject Ime.platform (Ime.desktop f VK_CONTROL)).2.plat =
          Ime.desktop f VK_CONTROL := by
        simpa [shift_inject, hvk] using i2
      obtain ⟨s1, s2⟩ := model_query f VK_CONTROL
        ((shift_inject Ime.platform (Ime.desktop f VK_CONTROL)).2.exec (.Sleep 100)
          (Ime.platform.Sleep 100)) (by rw [World.exec_plat, i2']; rfl)
      have s1' : (second_read Ime.platform (Ime.desktop f VK_CONTROL)).1 =
          (first_read Ime.platform (Ime.desktop f VK_CONTROL)).1 := by
        rw [q1]; exact s1
      obtain ⟨c1, c2⟩ := model_inject f VK_CONTROL VK_CONTROL
        (second_read Ime.platform (Ime.desktop f VK_CONTROL)).2 s2
      have c1' : (ctrl_inject Ime.platform (Ime.desktop f VK_CONTROL)).1 = 0 := c1
      have hk := key_stage_auto Ime.platform (decide (lang = "zh")) (Ime.desktop f VK_CONTROL)
      have i1' : (shift_inject Ime.platform (Ime.desktop f VK_CONTROL)).1 = 0 := i1
      simp only [h0, ht', if_true, if_false, i1', s1', c1', ne_eq, not_true_eq_false, and_false,
        Bool.false_eq_true] at hk
      rw [e, hk, World.printf_plat]
      simpa [ctrl_inject] using c2


theorem tsf_new_value_zero (set_zh : Bool) :
    tsf_new_value set_zh 0 = if set_zh then 1 else 0 := by
  cases set_zh
  · have h2 : Int.lnot 1 = Int.bit false (-1) := by decide
    have h0 : (0 : Int) = Int.bit false 0 := by decide
    show Int.land 0 (Int.lnot 1) = 0
    rw [h2]
    conv_lhs => rw [h0, Int.land_bit, int_land_neg_one]
    decide
  · decide

/-! ## The Legacy Message Strategy, case by case -/

/-- What `imm32_set` returns: -1 for a missing window, a layout that is not
Chinese, a missing IME window, or a get-conversion-mode request that returns
zero; 0 once the get request completed, whatever the set request returns. -/
theorem imm32_set_result (P : Platform σ) (fg : Nat) (set_zh : Bool) (w : World σ) :
    let t := P.GetWindowThreadProcessId fg w.plat
    let h := P.GetKeyboardLayout t.1 t.2
    let i := P.ImmGetDefaultIMEWnd fg h.2
    let m := P.SendMessageTimeoutW i.1 WM_IME_CONTROL IMC_GETCONVERSIONMODE 0
              (SMTO_ABORTIFHUNG ||| SMTO_BLOCK) 500 i.2
    (imm32_set P fg set_zh w).1 =
      if fg = 0 ∨ PRIMARYLANGID (LOWORD h.1) ≠ LANG_CHINESE ∨ i.1 = 0 ∨ m.1.1 = 0 then -1
      else 0 := by
  simp only [imm32_set, is_chinese_ime, get_conversion_mode]
  split_ifs <;> simp_all

/-! ## The claims -/

/-- C1: for a recognised language, every key mode and every platform, one
`cmd_set` run starts the strategies in the order key injection, compartment
write (`tsf_set`), legacy message (`imm32_set`): the key-injection stage
always runs and reports Applied or not; if it reports Applied nothing else is
started and the run returns 0; otherwise `tsf_set` is started, and if it
returns 0 the run ends there with 0; only when both did not report Applied is
`imm32_set` started, and the run returns 0 exactly when it returns 0.  In
particular, when the State Reader answers Unknown and `tsf_set` succeeds, the
strategies started are key injection and compartment only: `imm32_set` is not
invoked. -/
theorem cmd_set_cascade (P : Platform σ) (lang : String) (tk : ToggleKey) (s : σ)
    (h : lang = "zh" ∨ lang = "en") :
    let set_zh := decide (lang = "zh")
    let r := cmd_set P lang tk (World.init s)
    let k := key_stage P set_zh tk s
    let t := compartment_stage P set_zh tk s
    let m := legacy_stage P set_zh tk s
    (k.1 = some 0 ∨ k.1 = none) ∧
    (k.1 = some 0 → strategies r.2.trace = [.KeyInjection] ∧ r = (0, k.2)) ∧
    (k.1 = none → t.1 = 0 →
      strategies r.2.trace = [.KeyInjection, .Compartment] ∧ r = (0, t.2.printf "ok\n")) ∧
    (k.1 = none → t.1 ≠ 0 →
      strategies r.2.trace = [.KeyInjection, .Compartment, .Legacy] ∧ r.2.trace = m.2.trace ∧
      (r.1 = 0 ↔ m.1 = 0)) ∧
    ((first_read P s).1 < 0 → (tsf_set P set_zh (first_read P s).2).1 = 0 →
      k.1 = none ∧ strategies r.2.trace = [.KeyInjection, .Compartment] ∧
      Strategy.Legacy ∉ strategies r.2.trace ∧ r.1 = 0) := by
  intro set_zh r k t m
  obtain ⟨-, hs⟩ := cmd_set_trace P lang tk s h
  have e : r = _ := cmd_set_fresh P lang tk s h
  obtain ⟨-, -, k3⟩ := key_stage_frame P set_zh tk s
  have hk : k.1 = some 0 ∨ k.1 = none := by
    rcases k3 with ⟨ka, -⟩ | ⟨ka, -⟩
    · exact Or.inl ka
    · exact Or.inr ka
  have c2 : k.1 = some 0 → strategies r.2.trace = [.KeyInjection] ∧ r = (0, k.2) := by
    intro ka
    have ka' : (key_stage P (decide (lang = "zh")) tk s).1 = some 0 := ka
    refine ⟨?_, ?_⟩
    · rw [hs, ka']; simp
    · rw [e, ka']
  have c3 : k.1 = none → t.1 = 0 →
      strategies r.2.trace = [.KeyInjection, .Compartment] ∧ r = (0, t.2.printf "ok\n") := by
    intro ka ht
    have ka' : (key_stage P (decide (lang = "zh")) tk s).1 = none := ka
    have ht' : (compartment_stage P (decide (lang = "zh")) tk s).1 = 0 := ht
    refine ⟨?_, ?_⟩
    · rw [hs, ka', ht']; simp
    · rw [e, ka']; simp only [ht', if_true]
  refine ⟨hk, c2, c3, ?_, ?_⟩
  · intro ka ht
    have ka' : (key_stage P (decide (lang = "zh")) tk s).1 = none := ka
    have ht' : ¬ (compartment_stage P (decide (lang = "zh")) tk s).1 = 0 := ht
    refine ⟨?_, ?_, ?_⟩
    · rw [hs, ka']; simp [ht']
    · rw [e, ka']; simp only [ht', if_false]
      split_ifs <;> rfl
    · rw [e, ka']; simp only [ht', if_false]
      split_ifs with hm
      · simp [hm, m]
      · simp [hm, m]
  · intro hq ht
    have kq := key_stage_unknown P set_zh tk s hq
    have ka : k.1 = none := by simp [k, kq]
    have ht2 : t.1 = 0 := by
      simp only [t, compartment_stage, kq]; exact ht
    obtain ⟨h1, h2⟩ := c3 ka ht2
    refine ⟨ka, h1, ?_, ?_⟩
    · rw [h1]; decide
    · rw [h2]

/-- C1 at a concrete input: a window with the en-US layout, where the State
Reader answers Unknown and the compartment write succeeds. -/
theorem cmd_set_cascade_witness :
    ("zh" = "zh" ∨ "zh" = "en") ∧
    (first_read Ime.platform { Ime.desktop 0 VK_SHIFT with hkl := 0x04090409 }).1 < 0 ∧
    strategies (cmd_set Ime.platform "zh" .KEY_AUTO
      (World.init { Ime.desktop 0 VK_SHIFT with hkl := 0x04090409 })).2.trace =
      [.KeyInjection, .Compartment] ∧
    (cmd_set Ime.platform "zh" .KEY_AUTO
      (World.init { Ime.desktop 0 VK_SHIFT with hkl := 0x04090409 })).1 = 0 :=
  have h := (cmd_set_cascade Ime.platform "zh" .KEY_AUTO
    { Ime.desktop 0 VK_SHIFT with hkl := 0x04090409 } (Or.inl rfl)).2.2.2.2
    (by decide) (by decide)
  ⟨Or.inl rfl, by decide, h.2.1, h.2.2.2⟩

/-- C2: for every language argument, key mode and platform, `cmd_set`
returns 1 exactly when the language is neither `zh` nor `en` or all three
stages (key injection, `tsf_set`, `imm32_set`) did not report Applied; in
every other case it returns 0 and prints exactly `ok`, with nothing on the
error stream.  When it returns 1 nothing is printed to standard output and a
message goes to the error stream. -/
theorem cmd_set_exit_code (P : Platform σ) (lang : String) (tk : ToggleKey) (s : σ) :
    let set_zh := decide (lang = "zh")
    let r := cmd_set P lang tk (World.init s)
    (r.1 = 1 ↔ (lang ≠ "zh" ∧ lang ≠ "en") ∨
      ((key_stage P set_zh tk s).1 = none ∧ (compartment_stage P set_zh tk s).1 ≠ 0 ∧
        (legacy_stage P set_zh tk s).1 ≠ 0)) ∧
    (r.1 ≠ 1 → r.1 = 0 ∧ r.2.stdout = ["ok\n"] ∧ r.2.stderr = []) ∧
    (r.1 = 1 → r.2.stdout = [] ∧ r.2.stderr ≠ []) := by
  intro set_zh r
  by_cases h : lang = "zh" ∨ lang = "en"
  · have hl : ¬ (lang ≠ "zh" ∧ lang ≠ "en") := by
      rcases h with h | h
      · simp [h]
      · simp [h]
    have e : r = _ := cmd_set_fresh P lang tk s h
    obtain ⟨-, k2, k3⟩ := key_stage_frame P set_zh tk s
    have t1 : (compartment_stage P set_zh tk s).2.stdout = (key_stage P set_zh tk s).2.stdout := by
      simp [compartment_stage]
    have t2 : (compartment_stage P set_zh tk s).2.stderr = (key_stage P set_zh tk s).2.stderr := by
      simp [compartment_stage]
    have m1 : (legacy_stage P set_zh tk s).2.stdout = (key_stage P set_zh tk s).2.stdout := by
      simp [legacy_stage, t1]
    have m2 : (legacy_stage P set_zh tk s).2.stderr = (key_stage P set_zh tk s).2.stderr := by
      simp [legacy_stage, t2]
    rcases k3 with ⟨ka, kb⟩ | ⟨ka, kb⟩
    · have e' : r = (0, (key_stage P set_zh tk s).2) := by
        rw [e]; simp only [set_zh] at ka; rw [ka]
      simp [e', ka, kb, k2, hl]
    · by_cases ht : (compartment_stage P set_zh tk s).1 = 0
      · have e' : r = (0, (compartment_stage P set_zh tk s).2.printf "ok\n") := by
          rw [e]; simp only [set_zh] at ka ht; rw [ka]; simp only [ht, if_true]
        simp [e', ka, kb, k2, hl, ht, t1, t2]
      · by_cases hm : (legacy_stage P set_zh tk s).1 = 0
        · have e' : r = (0, (legacy_stage P set_zh tk s).2.printf "ok\n") := by
            rw [e]; simp only [set_zh] at ka ht hm; rw [ka]; simp only [ht, hm, if_true, if_false]
          simp [e', ka, kb, k2, hl, ht, hm, m1, m2]
        · have e' : r = (1, (legacy_stage P set_zh tk s).2.eprintf
              "Failed: all methods failed\n") := by
            rw [e]; simp only [set_zh] at ka ht hm; rw [ka]; simp only [ht, hm, if_false]
          simp [e', ka, kb, k2, hl, ht, hm, m1, m2]
  · have h1 : lang ≠ "zh" := fun e => h (Or.inl e)
    have h2 : lang ≠ "en" := fun e => h (Or.inr e)
    have e : r = (1, ((World.init s).log (.enter .cmd_set)).eprintf
        ("Unknown language: " ++ lang ++ "\n")) := by
      simp [r, cmd_set, h1, h2]
    simp [e, h1, h2, World.init]

/-- C3: `cmd_query` returns exit code 0 for every outcome of the State
Reader; it prints `zh` when the State Reader reports Native (1) and `en` when
it reports Alphanumeric (0) or Unknown (-1), which are the only outcomes;
nothing goes to the error stream. -/
theorem cmd_query_spec (P : Platform σ) (w : World σ) :
    let f := (w.log (.enter .cmd_query)).call .GetForegroundWindow P.GetForegroundWindow
    let r := imm32_query P f.1 f.2
    (cmd_query P w).1 = 0 ∧
    (cmd_query P w).2.stderr = w.stderr ∧
    (r.1 = 1 → (cmd_query P w).2.stdout = w.stdout ++ ["zh\n"]) ∧
    (r.1 = 0 → (cmd_query P w).2.stdout = w.stdout ++ ["en\n"]) ∧
    (r.1 = -1 → (cmd_query P w).2.stdout = w.stdout ++ ["en\n"]) ∧
    (r.1 = 1 ∨ r.1 = 0 ∨ r.1 = -1) := by
  refine ⟨?_, ?_, ?_, ?_, ?_, ?_⟩
  · simp only [cmd_query]
    split_ifs <;> rfl
  · simp only [cmd_query]
    split_ifs <;> simp
  · intro h
    simp only [World.call_fst, World.log_plat] at h
    simp [cmd_query, h]
  · intro h
    simp only [World.call_fst, World.log_plat] at h
    simp [cmd_query, h]
  · intro h
    simp only [World.call_fst, World.log_plat] at h
    simp [cmd_query, h]
  · rcases imm32_query_range P
      ((w.log (.enter .cmd_query)).call .GetForegroundWindow P.GetForegroundWindow).1
      ((w.log (.enter .cmd_query)).call .GetForegroundWindow P.GetForegroundWindow).2
      with h | h | h
    · exact Or.inr (Or.inr h)
    · exact Or.inr (Or.inl h)
    · exact Or.inl h

/-- C4: `imm32_query` on a window whose layout language is not Chinese returns
Unknown (-1) after the layout inspection alone, with no IME-window lookup and
no message (and with no call at all for a missing window); it returns Unknown
when the IME window is missing (no request can be sent) and when the timed
get-conversion-mode request returns zero; when the request completes it
returns Native (1) if bit 0 of the returned flags is set and Alphanumeric (0)
if it is clear, whatever the other bits are. -/
theorem imm32_query_spec (P : Platform σ) (fg : Nat) (w : World σ) :
    let t := P.GetWindowThreadProcessId fg w.plat
    let h := P.GetKeyboardLayout t.1 t.2
    let i := P.ImmGetDefaultIMEWnd fg h.2
    let m := P.SendMessageTimeoutW i.1 WM_IME_CONTROL IMC_GETCONVERSIONMODE 0
              (SMTO_ABORTIFHUNG ||| SMTO_BLOCK) 500 i.2
    let inspected := w.trace ++ [.enter .imm32_query, .enter .is_chinese_ime,
              .GetWindowThreadProcessId fg, .GetKeyboardLayout t.1]
    let r := imm32_query P fg w
    (fg = 0 → r.1 = -1 ∧ r.2.trace = w.trace ++ [.enter .imm32_query] ∧ r.2.plat = w.plat) ∧
    (fg ≠ 0 → PRIMARYLANGID (LOWORD h.1) ≠ LANG_CHINESE →
      r.1 = -1 ∧ r.2.trace = inspected ∧ r.2.plat = h.2) ∧
    (fg ≠ 0 → PRIMARYLANGID (LOWORD h.1) = LANG_CHINESE → i.1 = 0 →
      r.1 = -1 ∧ r.2.trace = inspected ++ [.ImmGetDefaultIMEWnd fg] ∧ r.2.plat = i.2) ∧
    (fg ≠ 0 → PRIMARYLANGID (LOWORD h.1) = LANG_CHINESE → i.1 ≠ 0 → m.1.1 = 0 →
      r.1 = -1) ∧
    (fg ≠ 0 → PRIMARYLANGID (LOWORD h.1) = LANG_CHINESE → i.1 ≠ 0 → m.1.1 ≠ 0 →
      (m.1.2.testBit 0 = true → r.1 = 1) ∧ (m.1.2.testBit 0 = false → r.1 = 0)) := by
  refine ⟨?_, ?_, ?_, ?_, ?_⟩
  · intro h0
    simp [imm32_query, h0]
  · intro h0 hl
    simp [imm32_query, is_chinese_ime, h0, hl]
  · intro h0 hl hi
    simp [imm32_query, is_chinese_ime, h0, hl, hi]
  · intro h0 hl hi hm
    simp [imm32_query, is_chinese_ime, get_conversion_mode, h0, hl, hi, hm]
  · intro h0 hl hi hm
    have hb := and_one_ne_zero_iff
      (P.SendMessageTimeoutW (P.ImmGetDefaultIMEWnd fg (P.GetKeyboardLayout
        (P.GetWindowThreadProcessId fg w.plat).1
        (P.GetWindowThreadProcessId fg w.plat).2).2).1 WM_IME_CONTROL IMC_GETCONVERSIONMODE 0
        (SMTO_ABORTIFHUNG ||| SMTO_BLOCK) 500
        (P.ImmGetDefaultIMEWnd fg (P.GetKeyboardLayout
        (P.GetWindowThreadProcessId fg w.plat).1
        (P.GetWindowThreadProcessId fg w.plat).2).2).2).1.2
    constructor
    · intro hbit
      have := hb.mpr hbit
      simp [imm32_query, is_chinese_ime, get_conversion_mode, h0, hl, hi, hm, this]
    · intro hbit
      have : ¬ _ := fun hne => by
        have := hb.mp hne
        simp [hbit] at this
      simp only [ne_eq, not_not] at this
      simp [imm32_query, is_chinese_ime, get_conversion_mode, h0, hl, hi, hm, this]

/-- C5: for either target and every key mode, when the State Reader reports
the mode asked for (1 for `zh`, 0 for `en`), `cmd_set` returns 0 and prints
`ok` with no `SendInput` call at all, and the only strategy started is key
injection: neither `tsf_set` nor `imm32_set` is invoked; the run ends right
after the State Reader's answer. -/
theorem cmd_set_noop (P : Platform σ) (lang : String) (tk : ToggleKey) (s : σ)
    (h : lang = "zh" ∨ lang = "en")
    (hq : (first_read P s).1 = if lang = "zh" then 1 else 0) :
    let r := cmd_set P lang tk (World.init s)
    r.1 = 0 ∧ r.2.stdout = ["ok\n"] ∧ r.2.stderr = [] ∧
    injections r.2.trace = [] ∧ strategies r.2.trace = [.KeyInjection] ∧
    r.2.trace = (first_read P s).2.trace := by
  intro r
  have e : r = _ := cmd_set_fresh P lang tk s h
  have h0 : ¬ (first_read P s).1 < 0 := by
    rw [hq]; split_ifs <;> decide
  have h1 : is_target (decide (lang = "zh")) (first_read P s).1 = true := by
    rw [hq]
    rcases h with h | h
    · simp [h, is_target]
    · simp [h, is_target, recognised_ne]
  have hk : key_stage P (decide (lang = "zh")) tk s = (some 0, (first_read P s).2.printf "ok\n") := by
    cases tk
    · rw [key_stage_auto]; simp only [h0, h1, if_true, if_false]
    · rw [key_stage_single P _ _ s (Or.inl rfl)]; simp only [h0, h1, if_true, if_false]
    · rw [key_stage_single P _ _ s (Or.inr rfl)]; simp only [h0, h1, if_true, if_false]
  rw [hk] at e
  have e' : r = (0, (first_read P s).2.printf "ok\n") := e
  rw [e']
  have hs : strategies (first_read P s).2.trace = [.KeyInjection] := by
    simp [first_read, cmd_set_start, World.init, strategyOf]
  have ho : (first_read P s).2.stdout = [] := by
    simp [first_read, cmd_set_start, World.init]
  have he : (first_read P s).2.stderr = [] := by
    simp [first_read, cmd_set_start, World.init]
  simp [first_read_injections, hs, ho, he]

/-- C5 at a concrete input: `set en --key=ctrl` with the input method already
in alphanumeric mode. -/
theorem cmd_set_noop_witness :
    ("en" = "zh" ∨ "en" = "en") ∧
    (first_read Ime.platform (Ime.desktop 6 VK_SHIFT)).1 = (if "en" = "zh" then 1 else 0) ∧
    (cmd_set Ime.platform "en" .KEY_CTRL (World.init (Ime.desktop 6 VK_SHIFT))).1 = 0 ∧
    injections (cmd_set Ime.platform "en" .KEY_CTRL
      (World.init (Ime.desktop 6 VK_SHIFT))).2.trace = [] :=
  have h := cmd_set_noop Ime.platform "en" .KEY_CTRL (Ime.desktop 6 VK_SHIFT) (Or.inr rfl)
    (by decide)
  ⟨Or.inr rfl, by decide, h.1, h.2.2.2.1⟩

/-- C7, counterexample to the claim as stated: on the modelled desktop with the
input method toggling on `Shift` (its default) and starting in native mode,
`set zh` then `set en` in key mode `Ctrl` both return 0, and the query then
prints `zh`: the `Ctrl` pair was injected and the input method ignored it. -/
theorem round_trip_ctrl_on_shift_ime :
    (cmd_set Ime.platform "zh" .KEY_CTRL (World.init (Ime.desktop 1 VK_SHIFT))).1 = 0 ∧
    (cmd_set Ime.platform "en" .KEY_CTRL (World.init (Ime.desktop 1 VK_SHIFT))).1 = 0 ∧
    round_trip Ime.platform .KEY_CTRL (Ime.desktop 1 VK_SHIFT) = ["zh\n"] ∧
    round_trip Ime.platform .KEY_CTRL (Ime.desktop 1 VK_SHIFT) ≠ ["en\n"] := by
  decide

/-- C7, amended: on the modelled desktop, for every initial value of the
conversion flags and every key mode that includes the key the input method
toggles on (that key alone, or Auto when it is `Shift` or `Ctrl`), running
`set zh`, then `set en`, then `query` makes the query print `en`. -/
theorem round_trip_en (flags toggleKey : Nat) (tk : ToggleKey) (h : covers tk toggleKey) :
    round_trip Ime.platform tk (Ime.desktop flags toggleKey) = ["en\n"] := by
  obtain ⟨f1, e1, -⟩ := model_set flags toggleKey tk "zh" h (Or.inl rfl)
  obtain ⟨f2, e2, b2⟩ := model_set f1 toggleKey tk "en" h (Or.inr rfl)
  have hb : ¬ (f2 &&& 1 ≠ 0) := fun hh => recognised_ne (b2.mp hh)
  obtain ⟨q1, -⟩ := model_query f2 toggleKey
    (((World.init (Ime.desktop f2 toggleKey)).log (.enter .cmd_query)).call .GetForegroundWindow
      Ime.platform.GetForegroundWindow).2 rfl
  simp only [hb, if_false] at q1
  have hq := cmd_query_prints_en Ime.platform (World.init (Ime.desktop f2 toggleKey)) q1
  simp only [round_trip, e1, e2]
  exact hq

/-- C7 (amended) at a concrete input: Auto mode against an input method that
toggles on `Ctrl`, starting in native mode. -/
theorem round_trip_en_witness :
    covers .KEY_AUTO VK_CONTROL ∧
    round_trip Ime.platform .KEY_AUTO (Ime.desktop 1 VK_CONTROL) = ["en\n"] :=
  ⟨Or.inr (Or.inr ⟨rfl, Or.inr rfl⟩),
    round_trip_en 1 VK_CONTROL .KEY_AUTO (Or.inr (Or.inr ⟨rfl, Or.inr rfl⟩))⟩

/-- C8, the code at the failing input: the IME window answers the
get-conversion-mode request and lets the set-conversion-mode request time out
(`SendMessageTimeoutW` returns 0 for it).  `imm32_set` sends both requests,
the conversion flags stay 0, and it returns 0 (Applied) where the claim says
Failed. -/
theorem imm32_set_applied_on_set_timeout :
    (Ime.hung_on_set.SendMessageTimeoutW 9 WM_IME_CONTROL IMC_SETCONVERSIONMODE 1
      (SMTO_ABORTIFHUNG ||| SMTO_BLOCK) 500 (Ime.desktop 0 VK_SHIFT)).1.1 = 0 ∧
    (imm32_set Ime.hung_on_set 7 true (World.init (Ime.desktop 0 VK_SHIFT))).1 = 0 ∧
    (imm32_set Ime.hung_on_set 7 true (World.init (Ime.desktop 0 VK_SHIFT))).2.trace =
      [.enter .imm32_set, .enter .is_chinese_ime, .GetWindowThreadProcessId 7,
        .GetKeyboardLayout 1, .ImmGetDefaultIMEWnd 7,
        .SendMessageTimeoutW 9 WM_IME_CONTROL IMC_GETCONVERSIONMODE 0 3 500,
        .SendMessageTimeoutW 9 WM_IME_CONTROL IMC_SETCONVERSIONMODE 1 3 500] ∧
    (imm32_set Ime.hung_on_set 7 true (World.init (Ime.desktop 0 VK_SHIFT))).2.plat.flags = 0 := by
  decide

/-- C9, counterexample to the claim as stated: when the cell holds the value 6
as an unsigned integer (`VT_UI4`) and is read successfully, and when the cell
holds the value 6 as a `VT_I4` and the read fails with `E_FAIL`, `tsf_set`
with target Native writes the value 1: bits 1 and 2 of the value the cell
held, both set, are clear in the value written. -/
theorem tsf_set_drops_flags_of_non_i4 :
    ((Ime.platform.ITfCompartment_GetValue (tsf_read_state Ime.platform
        { Ime.desktop 0 VK_SHIFT with cell := ⟨VT_UI4, 6⟩ })).1 = (0, ⟨VT_UI4, 6⟩) ∧
      writes (tsf_set Ime.platform true
        (World.init { Ime.desktop 0 VK_SHIFT with cell := ⟨VT_UI4, 6⟩ })).2.trace =
          [⟨VT_I4, 1⟩] ∧
      (tsf_set Ime.platform true
        (World.init { Ime.desktop 0 VK_SHIFT with cell := ⟨VT_UI4, 6⟩ })).2.plat.cell =
          ⟨VT_I4, 1⟩) ∧
    ((Ime.unreadable.ITfCompartment_GetValue (tsf_read_state Ime.unreadable
        { Ime.desktop 0 VK_SHIFT with cell := ⟨VT_I4, 6⟩ })).1.1 = E_FAIL ∧
      writes (tsf_set Ime.unreadable true
        (World.init { Ime.desktop 0 VK_SHIFT with cell := ⟨VT_I4, 6⟩ })).2.trace =
          [⟨VT_I4, 1⟩] ∧
      (tsf_set Ime.unreadable true
        (World.init { Ime.desktop 0 VK_SHIFT with cell := ⟨VT_I4, 6⟩ })).2.plat.cell =
          ⟨VT_I4, 1⟩) ∧
    Int.testBit 6 1 = true ∧ Int.testBit 6 2 = true ∧
    Int.testBit 1 1 = false ∧ Int.testBit 1 2 = false := by
  decide

/-- C9, amended: `tsf_set` writes the compartment at most once, and does so
whenever it returns 0; the value written is a `VT_I4` whose bit 0 is set for
target Native and clear for Alphanumeric.  When the read before it succeeded
with a `VT_I4` value, every other bit of the value written equals the
corresponding bit of the value read, and the value written is a 32-bit value
when the value read is; when the read failed or gave a value of another type,
the value written is exactly 1 for Native and 0 for Alphanumeric. -/
theorem tsf_set_write (P : Platform σ) (set_zh : Bool) (w : World σ) :
    let g := P.ITfCompartment_GetValue (tsf_read_state P w.plat)
    let nv := tsf_new_value set_zh (tsf_cur g.1.1 g.1.2)
    let r := tsf_set P set_zh w
    (writes r.2.trace = writes w.trace ∨
      writes r.2.trace = writes w.trace ++ [⟨VT_I4, nv⟩]) ∧
    (r.1 = 0 → writes r.2.trace = writes w.trace ++ [⟨VT_I4, nv⟩]) ∧
    nv.testBit 0 = set_zh ∧
    (SUCCEEDED g.1.1 = true → g.1.2.vt = VT_I4 →
      (∀ i, i ≠ 0 → nv.testBit i = g.1.2.lVal.testBit i) ∧
      (-2 ^ 31 ≤ g.1.2.lVal ∧ g.1.2.lVal < 2 ^ 31 → -2 ^ 31 ≤ nv ∧ nv < 2 ^ 31)) ∧
    (¬ (SUCCEEDED g.1.1 = true ∧ g.1.2.vt = VT_I4) → nv = if set_zh then 1 else 0) := by
  intro g nv r
  refine ⟨?_, ?_, (tsf_new_value_bits set_zh _).1, ?_, ?_⟩
  · simp only [r, tsf_set]
    split_ifs <;>
      simp [ts_done, ts_rel, ts_deact, ts_relgcm, writeOf, nv, g, tsf_read_state]
  · simp only [r, tsf_set]
    split_ifs <;>
      simp [ts_done, ts_rel, ts_deact, ts_relgcm, writeOf, nv, g, tsf_read_state]
  · intro h1 h2
    have hc : tsf_cur g.1.1 g.1.2 = g.1.2.lVal := by simp [tsf_cur, h1, h2]
    refine ⟨?_, ?_⟩
    · intro i hi
      simp only [nv, hc]
      exact (tsf_new_value_bits set_zh _).2 i hi
    · intro hr
      simp only [nv, hc]
      exact tsf_new_value_range set_zh _ hr
  · intro h
    have hc : tsf_cur g.1.1 g.1.2 = 0 := by
      simp only [tsf_cur]
      by_cases h1 : SUCCEEDED g.1.1 = true
      · have h2 : ¬ g.1.2.vt = VT_I4 := fun h2 => h ⟨h1, h2⟩
        simp [h1, h2]
      · simp [h1]
    simp only [nv, hc]
    exact tsf_new_value_zero set_zh

/-- C10: in Auto key mode, for a recognised language, a `Ctrl` key pair is
among the `SendInput` calls of a `cmd_set` run exactly when the first answer of
the State Reader is known and differs from the target, the `Shift` injection
call returned 0, and the answer after the wait does not confirm the target (it
is the other mode or Unknown); the calls are then `Shift`, `Ctrl` in that
order.  When the first answer is Unknown there is no `SendInput` call at all;
when the `Shift` injection call fails the only call is the `Shift` one, the
key-injection stage does not report Applied and the compartment strategy is
started. -/
theorem cmd_set_auto_ctrl (P : Platform σ) (lang : String) (s : σ)
    (h : lang = "zh" ∨ lang = "en") :
    let set_zh := decide (lang = "zh")
    let r := cmd_set P lang .KEY_AUTO (World.init s)
    let escalate : Prop :=
      0 ≤ (first_read P s).1 ∧ is_target set_zh (first_read P s).1 = false ∧
      (shift_inject P s).1 = 0 ∧
      ¬ (0 ≤ (second_read P s).1 ∧ is_target set_zh (second_read P s).1 = true)
    (key_pair VK_CONTROL ∈ injections r.2.trace ↔ escalate) ∧
    (escalate → injections r.2.trace = [key_pair VK_SHIFT, key_pair VK_CONTROL]) ∧
    ((first_read P s).1 < 0 → injections r.2.trace = []) ∧
    (0 ≤ (first_read P s).1 → is_target set_zh (first_read P s).1 = false →
      (shift_inject P s).1 ≠ 0 →
        injections r.2.trace = [key_pair VK_SHIFT] ∧
        (key_stage P set_zh .KEY_AUTO s).1 = none ∧
        Strategy.Compartment ∈ strategies r.2.trace) := by
  intro set_zh r escalate
  obtain ⟨hi, hs⟩ := cmd_set_trace P lang .KEY_AUTO s h
  have hk := key_stage_auto P set_zh s
  have hne := key_pair_ne
  simp only [r, escalate]
  rw [hi, hs]
  simp only [set_zh] at hk
  rw [hk]
  split_ifs <;>
    simp_all [first_read_injections, shift_inject_injections, second_read_injections,
      ctrl_inject_injections]

/-- C10 at a concrete input: Auto mode against an input method that toggles on
`Ctrl`, starting in alphanumeric mode with target `zh`. -/
theorem cmd_set_auto_ctrl_witness :
    ("zh" = "zh" ∨ "zh" = "en") ∧
    injections (cmd_set Ime.platform "zh" .KEY_AUTO
      (World.init (Ime.desktop 0 VK_CONTROL))).2.trace =
      [key_pair VK_SHIFT, key_pair VK_CONTROL] :=
  ⟨Or.inl rfl,
    (cmd_set_auto_ctrl Ime.platform "zh" (Ime.desktop 0 VK_CONTROL) (Or.inl rfl)).2.1
      (by decide)⟩

end ImeSwitcher
